import Mathlib

/-!
# Verification of the wayland-window mode (`source/modes/wayland-window.c`)

A shallow embedding of the foreign-toplevel window-mode module: the
per-toplevel event accumulation, the registry's running column maxima,
the display-string format engine driven by the placeholder regex, the
icon-cache lookup, initialization, and the result dispatch.

Strings are modelled at the Unicode-codepoint level (Lean `String` /
`List Char`), matching the module's use of `g_utf8_strlen` /
`g_utf8_offset_to_pointer` for all length and truncation computations.
Machine integers that can go negative (`int`, `glong`) are modelled as
`Int` with the source's explicit clamps; lengths produced by
`g_utf8_strlen` are non-negative and are kept as `Nat`.
-/

/-! ## Models of the GLib collaborators used by the module -/

/-- Lowercase-hex digits of `n` (the `%x` used by GLib's numeric
character references). -/
def hexStr (n : Nat) : String := String.mk (Nat.toDigits 16 n)

/-- One character of `g_markup_escape_text`: the five markup
metacharacters become entities, the control characters GLib escapes
become numeric references, everything else is copied. -/
def escapeMarkupChar (c : Char) : String :=
  if c = '&' then "&amp;"
  else if c = '<' then "&lt;"
  else if c = '>' then "&gt;"
  else if c.toNat = 39 then "&apos;"
  else if c.toNat = 34 then "&quot;"
  else if (0x1 ≤ c.toNat ∧ c.toNat ≤ 0x8) ∨ (0xb ≤ c.toNat ∧ c.toNat ≤ 0xc) ∨
      (0xe ≤ c.toNat ∧ c.toNat ≤ 0x1f) ∨ (0x7f ≤ c.toNat ∧ c.toNat ≤ 0x84) ∨
      (0x86 ≤ c.toNat ∧ c.toNat ≤ 0x9f) then
    "&#x" ++ hexStr c.toNat ++ ";"
  else String.singleton c

/-- `g_markup_escape_text` over a whole string. -/
def g_markup_escape_text (s : String) : String :=
  String.join (s.toList.map escapeMarkupChar)

/-- `g_ascii_isspace`. -/
def g_ascii_isspace (c : Char) : Bool :=
  c = ' ' || c.toNat = 9 || c.toNat = 10 || c.toNat = 11 || c.toNat = 12 ||
    c.toNat = 13

/-- `g_strchomp`: remove trailing ASCII whitespace. -/
def g_strchomp (s : String) : String :=
  String.mk ((s.toList.reverse.dropWhile g_ascii_isspace).reverse)

/-- Decimal digits accumulated left to right (the core of
`g_ascii_strtoll` on the digit strings produced by the placeholder
regex). -/
def parseDecDigits : List Char → Nat → Nat
  | [], acc => acc
  | c :: cs, acc =>
      if c.isDigit then parseDecDigits cs (acc * 10 + (c.toNat - 48)) else acc

/-- `g_ascii_strtoll(s, NULL, 10)` on the `-?[0-9]+`-shaped prefixes the
placeholder regex guarantees at its call site. -/
def g_ascii_strtoll (l : List Char) : Int :=
  match l with
  | c :: cs => if c = '-' then -(parseDecDigits cs 0 : Int) else (parseDecDigits l 0 : Int)
  | [] => 0

/-- `g_utf8_strdown` (codepoint-wise lowercasing). -/
def g_utf8_strdown (s : String) : String := s.toLower

/-! ## Protocol constants

The `zwlr_foreign_toplevel_handle_v1` state enum values come from the
protocol definition (`wlr-foreign-toplevel-management-unstable-v1`):
maximized = 0, minimized = 1, activated = 2, fullscreen = 3. The module
shifts them into a bitset and adds its own closed bit `1 <<< 4`. -/

def TOPLEVEL_STATE_MAXIMIZED : Nat := 1 <<< 0
def TOPLEVEL_STATE_MINIMIZED : Nat := 1 <<< 1
def TOPLEVEL_STATE_ACTIVATED : Nat := 1 <<< 2
def TOPLEVEL_STATE_FULLSCREEN : Nat := 1 <<< 3
def TOPLEVEL_STATE_CLOSED : Nat := 1 <<< 4

/-! ## Data model -/

/-- `ForeignToplevelHandle`: one remote window's accumulated state.
`handle` stands for the protocol object pointer (unique id). A field
that is still NULL is `none`; `g_malloc0` zero-initializes everything. -/
structure ForeignToplevelHandle where
  handle : Nat
  title : Option String
  title_len : Nat
  app_id : Option String
  app_id_len : Nat
  state : Nat
  cached_icon_uid : Nat
  cached_icon_size : Nat
deriving DecidableEq, Repr

/-- `foreign_toplevel_handle_new`: a zeroed object bound to `handle`. -/
def foreign_toplevel_handle_new (h : Nat) : ForeignToplevelHandle :=
  { handle := h, title := none, title_len := 0, app_id := none,
    app_id_len := 0, state := 0, cached_icon_uid := 0, cached_icon_size := 0 }

/-- `WaylandWindowModePrivateData`: the registry. `manager` is the bound
manager global (`none` when absent), holding the bound version. -/
structure WaylandWindowModePrivateData where
  toplevels : List ForeignToplevelHandle
  visible : Bool
  title_len : Nat
  app_id_len : Nat
  manager : Option Nat
deriving DecidableEq, Repr

/-- The zeroed private data allocated by `wayland_window_mode_init`. -/
def initPrivateData : WaylandWindowModePrivateData :=
  { toplevels := [], visible := false, title_len := 0, app_id_len := 0,
    manager := none }

/-- `toplevels_list_update_max_len`: fold one entry's cached lengths into
the registry's running maxima. -/
def toplevels_list_update_max_len (entry : ForeignToplevelHandle)
    (pd : WaylandWindowModePrivateData) : WaylandWindowModePrivateData :=
  { pd with title_len := max entry.title_len pd.title_len,
            app_id_len := max entry.app_id_len pd.app_id_len }

/-- `wayland_window_update_toplevel`: before visibility, fold just this
item in; after visibility, zero both maxima and rescan the whole live
list (then schedule a reload, which has no model-level state). -/
def wayland_window_update_toplevel (pd : WaylandWindowModePrivateData)
    (toplevel : ForeignToplevelHandle) : WaylandWindowModePrivateData :=
  if pd.visible = false then
    toplevels_list_update_max_len toplevel pd
  else
    let pd0 := { pd with title_len := 0, app_id_len := 0 }
    pd0.toplevels.foldl (fun acc t => toplevels_list_update_max_len t acc) pd0

/-! ## Protocol events -/

/-- The events the module's listeners receive, tagged with the handle id
of the object they are delivered to. `reveal` stands for the
`pd->visible = TRUE` assignment that ends initialization, so that traces
can place it anywhere. `output_enter`/`output_leave`/`parent` are
ignored by the listeners and are omitted. -/
inductive WEvent where
  | announce (h : Nat)
  | setTitle (h : Nat) (s : String)
  | setAppId (h : Nat) (s : String)
  | setState (h : Nat) (xs : List Nat)
  | done (h : Nat)
  | closed (h : Nat)
  | reveal
deriving DecidableEq, Repr

/-- Replace the first list entry carrying handle `h` (events are
delivered through the object pointer; handles are unique). -/
def updateFirst (l : List ForeignToplevelHandle) (h : Nat)
    (f : ForeignToplevelHandle → ForeignToplevelHandle) :
    List ForeignToplevelHandle :=
  match l with
  | [] => []
  | t :: ts => if t.handle = h then f t :: ts else t :: updateFirst ts h f

/-- Remove the first list entry carrying handle `h` (`g_list_remove`). -/
def removeFirst (l : List ForeignToplevelHandle) (h : Nat) :
    List ForeignToplevelHandle :=
  match l with
  | [] => []
  | t :: ts => if t.handle = h then ts else t :: removeFirst ts h

/-- Find the object a handle's events are delivered to. -/
def findToplevel (l : List ForeignToplevelHandle) (h : Nat) :
    Option ForeignToplevelHandle :=
  l.find? (fun t => t.handle = h)

/-- `foreign_toplevel_handle_title`: replace the title and cache its
codepoint length (`g_utf8_strlen`). -/
def foreign_toplevel_handle_title (t : ForeignToplevelHandle) (s : String) :
    ForeignToplevelHandle :=
  { t with title := some s, title_len := s.length }

/-- `foreign_toplevel_handle_app_id`. -/
def foreign_toplevel_handle_app_id (t : ForeignToplevelHandle) (s : String) :
    ForeignToplevelHandle :=
  { t with app_id := some s, app_id_len := s.length }

/-- `foreign_toplevel_handle_state`: rebuild the bitset from the array. -/
def foreign_toplevel_handle_state (t : ForeignToplevelHandle)
    (xs : List Nat) : ForeignToplevelHandle :=
  { t with state := xs.foldl (fun acc e => acc ||| (1 <<< e)) 0 }

/-- One delivered event (the listener dispatch). `done` runs
`wayland_window_update_toplevel` on the object; `closed` flags the
object `CLOSED`, removes it from the live list, updates, and frees it.
Events for a handle that is no longer present are dropped. -/
def wstep (pd : WaylandWindowModePrivateData) : WEvent →
    WaylandWindowModePrivateData
  | .announce h =>
      { pd with toplevels := foreign_toplevel_handle_new h :: pd.toplevels }
  | .setTitle h s =>
      { pd with toplevels :=
          updateFirst pd.toplevels h (fun t => foreign_toplevel_handle_title t s) }
  | .setAppId h s =>
      { pd with toplevels :=
          updateFirst pd.toplevels h (fun t => foreign_toplevel_handle_app_id t s) }
  | .setState h xs =>
      { pd with toplevels :=
          updateFirst pd.toplevels h (fun t => foreign_toplevel_handle_state t xs) }
  | .done h =>
      match findToplevel pd.toplevels h with
      | none => pd
      | some t => wayland_window_update_toplevel pd t
  | .closed h =>
      match findToplevel pd.toplevels h with
      | none => pd
      | some t =>
          let tClosed := { t with state := TOPLEVEL_STATE_CLOSED }
          let pd1 := { pd with toplevels := removeFirst pd.toplevels h }
          wayland_window_update_toplevel pd1 tClosed
  | .reveal => { pd with visible := true }

/-- Run a trace of events. -/
def wrun (pd : WaylandWindowModePrivateData) (es : List WEvent) :
    WaylandWindowModePrivateData :=
  es.foldl wstep pd

/-! ## Specification-side measures -/

/-- Character count of a nullable field (an absent field contributes 0). -/
def fieldCharLen (o : Option String) : Nat := (o.getD "").length

/-- The true maximum title character count over a live list. -/
def maxTitleLen (l : List ForeignToplevelHandle) : Nat :=
  l.foldl (fun acc t => max (fieldCharLen t.title) acc) 0

/-- The true maximum app_id character count over a live list. -/
def maxAppIdLen (l : List ForeignToplevelHandle) : Nat :=
  l.foldl (fun acc t => max (fieldCharLen t.app_id) acc) 0

/-- The cached length fields agree with the true codepoint counts of the
stored fields (an absent field counts 0, as the zeroed allocation). -/
def lenOk (t : ForeignToplevelHandle) : Prop :=
  t.title_len = fieldCharLen t.title ∧ t.app_id_len = fieldCharLen t.app_id

/-- Field-only events delivered to a single object. -/
inductive FieldEvent where
  | title (s : String)
  | app_id (s : String)
  | state (xs : List Nat)
deriving DecidableEq, Repr

/-- Embed a field event for handle `h` into the trace alphabet. -/
def fieldToEvent (h : Nat) : FieldEvent → WEvent
  | .title s => .setTitle h s
  | .app_id s => .setAppId h s
  | .state xs => .setState h xs

/-- The last title value set in a field-event sequence, if any. -/
def lastTitleSet : List FieldEvent → Option String
  | [] => none
  | f :: fs =>
      match lastTitleSet fs with
      | some v => some v
      | none => match f with | .title s => some s | _ => none

/-- The last app_id value set in a field-event sequence, if any. -/
def lastAppIdSet : List FieldEvent → Option String
  | [] => none
  | f :: fs =>
      match lastAppIdSet fs with
      | some v => some v
      | none => match f with | .app_id s => some s | _ => none

/-- Apply one field event directly to an object (what `wstep` does
through `updateFirst`). -/
def applyFieldEvent (t : ForeignToplevelHandle) : FieldEvent →
    ForeignToplevelHandle
  | .title s => foreign_toplevel_handle_title t s
  | .app_id s => foreign_toplevel_handle_app_id t s
  | .state xs => foreign_toplevel_handle_state t xs

/-! ## Format engine

`_generate_display_string` runs `g_regex_replace_eval` with the pattern
`\x7b[-\w]+(:-?[0-9]+)?\x7d` (compiled in `get_wayland_window`), calls
`helper_eval_cb` on each match to append its replacement, and finally
`g_strchomp`s the result. The scanner below implements exactly that
pattern (PCRE, leftmost match, `\w` ASCII): since a word character is
neither a colon nor a closing brace, the greedy word run followed by the
optional count group needs no further backtracking. -/

/-- The opening brace character (code 123). -/
def braceOpen : Char := Char.ofNat 123

/-- The closing brace character (code 125). -/
def braceClose : Char := Char.ofNat 125

/-- `\w` (ASCII) or the `-` included in the character class. -/
def isWordChar (c : Char) : Bool :=
  c.isAlpha || c.isDigit || c = '_' || c = '-'

/-- Maximal word-character prefix and the rest. -/
def spanWord : List Char → List Char × List Char
  | [] => ([], [])
  | c :: cs =>
      if isWordChar c then
        let (w, r) := spanWord cs
        (c :: w, r)
      else ([], c :: cs)

/-- Parse the optional count group `:-?[0-9]+`; on success return the
consumed characters (including the colon) and the rest. -/
def matchCountGroup : List Char → Option (List Char × List Char)
  | c :: rest =>
      if c = ':' then
        let (sign, rest1) :=
          match rest with
          | c2 :: r2 => if c2 = '-' then ([c2], r2) else (([] : List Char), rest)
          | [] => (([] : List Char), rest)
        let (digs, rest2) := rest1.span Char.isDigit
        if digs = [] then none else some (c :: (sign ++ digs), rest2)
      else none
  | [] => none

/-- Try to match the placeholder pattern at the head of the input; on
success return the matched text and the rest of the input. -/
def tryMatch (l : List Char) : Option (List Char × List Char) :=
  match l with
  | c :: rest =>
      if c = braceOpen then
        let (w, rest1) := spanWord rest
        if w = [] then none
        else
          match matchCountGroup rest1 with
          | some (cnt, rest2) =>
              match rest2 with
              | c2 :: rest3 =>
                  if c2 = braceClose then some (c :: (w ++ cnt ++ [c2]), rest3)
                  else none
              | [] => none
          | none =>
              match rest1 with
              | c2 :: rest3 =>
                  if c2 = braceClose then some (c :: (w ++ [c2]), rest3)
                  else none
              | [] => none
      else none
  | [] => none

/-- The replace-eval scan: copy non-matching characters, and at each
match append the callback's replacement. `fuel` bounds the recursion;
every step consumes at least one character, so the input length is
enough fuel. -/
def replaceEvalAux (cb : List Char → String) : Nat → List Char → List Char
  | _, [] => []
  | 0, l => l
  | fuel + 1, c :: cs =>
      match tryMatch (c :: cs) with
      | some (m, rest) => (cb m).toList ++ replaceEvalAux cb fuel rest
      | none => c :: replaceEvalAux cb fuel cs

/-- `g_regex_replace_eval` on the window-format pattern. -/
def g_regex_replace_eval (cb : List Char → String) (s : String) : String :=
  String.mk (replaceEvalAux cb s.toList.length s.toList)

/-- `helper_eval_add_str`: append one substituted field. `len` is the
requested count (0 = none), `max_len` the column's global maximum,
`nc` the field's cached character count; all are character counts, and
truncation at `len` characters goes through
`g_utf8_offset_to_pointer`, i.e. counts codepoints, before
`g_markup_escape_text` is applied to the truncated bytes. -/
def helper_eval_add_str (str : String) (input : Option String)
    (len max_len nc : Int) : String :=
  let input_nn := input.getD ""
  if len = 0 then
    let spaces := max 0 (max_len - nc)
    str ++ input_nn ++ String.mk (List.replicate spaces.toNat ' ')
  else if nc > len then
    str ++ g_markup_escape_text (input_nn.take len.toNat)
  else
    let spaces := len - nc
    str ++ g_markup_escape_text input_nn ++
      String.mk (List.replicate spaces.toNat ' ')

/-- `helper_eval_cb`: decode one match (`m.get? 1` is `match[1]`, the
placeholder letter; a colon at `match[2]` introduces the count, parsed
by `g_ascii_strtoll` and clamped at 0) and produce the replacement; an
unrecognized letter appends nothing. -/
def helper_eval_cb (pd : WaylandWindowModePrivateData)
    (toplevel : ForeignToplevelHandle) (m : List Char) : String :=
  let c1 := (m.get? 1).getD ' '
  let c2 := (m.get? 2).getD ' '
  let l0 : Int := if c2 = ':' then g_ascii_strtoll (m.drop 3) else 0
  let l : Int := if l0 < 0 then 0 else l0
  if c1 = 't' then
    helper_eval_add_str "" toplevel.title l (pd.title_len : Int)
      (toplevel.title_len : Int)
  else if c1 = 'a' ∨ c1 = 'c' then
    helper_eval_add_str "" toplevel.app_id l (pd.app_id_len : Int)
      (toplevel.app_id_len : Int)
  else ""

/-- `_generate_display_string`: replace every placeholder in the
configured window format, then chomp trailing whitespace.
`window_format` stands for `config.window_format`. -/
def _generate_display_string (window_format : String)
    (pd : WaylandWindowModePrivateData)
    (toplevel : ForeignToplevelHandle) : String :=
  g_strchomp (g_regex_replace_eval (helper_eval_cb pd toplevel) window_format)

/-! ## Listing adapter -/

/-- `wayland_window_mode_get_num_entries`. -/
def wayland_window_mode_get_num_entries
    (pd : WaylandWindowModePrivateData) : Nat :=
  pd.toplevels.length

/-- `_get_display_value`: the returned text and whether the row is
flagged `ACTIVE` (the `*state |= ACTIVE` out-parameter). A lookup miss
or a `CLOSED` object yields the vanished sentinel. -/
def _get_display_value (window_format : String)
    (pd : WaylandWindowModePrivateData) (selected_line : Nat)
    (get_entry : Bool) : Option String × Bool :=
  match pd.toplevels.get? selected_line with
  | none => (if get_entry then some "Window has vanished" else none, false)
  | some toplevel =>
      if toplevel.state &&& TOPLEVEL_STATE_CLOSED ≠ 0 then
        (if get_entry then some "Window has vanished" else none, false)
      else
        (if get_entry then some (_generate_display_string window_format pd toplevel)
         else none,
         toplevel.state &&& TOPLEVEL_STATE_ACTIVATED ≠ 0)

/-! ## Icon lookup

`rofi_icon_fetcher_query` / `rofi_icon_fetcher_get` are the external
icon-cache collaborator: `query(key, size)` returns an id and `get(id)`
an image or none. Surfaces are modelled as opaque `Nat` tokens. -/

structure IconFetcher where
  query : String → Nat → Nat
  get : Nat → Option Nat

/-- The object-level body of `_get_icon` once the toplevel is resolved:
returns the icon, the updated object (its cache fields), and the list of
`query` calls issued, in order. -/
def get_icon_obj (f : IconFetcher) (t : ForeignToplevelHandle)
    (height : Nat) : Option Nat × ForeignToplevelHandle × List (String × Nat) :=
  match t.app_id with
  | none => (none, t, [])
  | some a =>
      if a = "" then (none, t, [])
      else if 0 < t.cached_icon_uid ∧ t.cached_icon_size = height then
        (f.get t.cached_icon_uid, t, [])
      else
        let uid1 := f.query a height
        let t1 := { t with cached_icon_size := height, cached_icon_uid := uid1 }
        match f.get uid1 with
        | some icon => (some icon, t1, [(a, height)])
        | none =>
            let lowered := g_utf8_strdown a
            let uid2 := f.query lowered height
            let t2 := { t1 with cached_icon_uid := uid2 }
            (f.get uid2, t2, [(a, height), (lowered, height)])

/-- `_get_icon`: resolve the row, run the lookup, write the updated
cache fields back. -/
def _get_icon (f : IconFetcher) (pd : WaylandWindowModePrivateData)
    (selected_line : Nat) (height : Nat) :
    Option Nat × WaylandWindowModePrivateData × List (String × Nat) :=
  match pd.toplevels.get? selected_line with
  | none => (none, pd, [])
  | some t =>
      let r := get_icon_obj f t height
      (r.1, { pd with toplevels := pd.toplevels.set selected_line r.2.1 }, r.2.2)

/-! ## Initialization -/

/-- One advertised registry global. -/
structure WlGlobal where
  name : String
  version : Nat
deriving DecidableEq, Repr

/-- The interface name of the manager global. -/
def zwlr_manager_interface : String := "zwlr_foreign_toplevel_manager_v1"

def WLR_FOREIGN_TOPLEVEL_VERSION : Nat := 3

/-- `handle_global`: bind the manager when the advertised interface
matches, at `MIN(version, WLR_FOREIGN_TOPLEVEL_VERSION)`. -/
def handle_global (pd : WaylandWindowModePrivateData) (g : WlGlobal) :
    WaylandWindowModePrivateData :=
  if g.name = zwlr_manager_interface then
    { pd with manager := some (min g.version WLR_FOREIGN_TOPLEVEL_VERSION) }
  else pd

/-- Outcome of `get_wayland_window`: the private data, how many warnings
were emitted, and how many blocking round-trips were performed. -/
structure InitOutcome where
  pd : WaylandWindowModePrivateData
  warnings : Nat
  roundtrips : Nat
deriving DecidableEq, Repr

/-- `get_wayland_window`: the first round-trip delivers the registry
globals; if no manager was bound, warn once and stop. Otherwise the
second round-trip delivers the initial toplevel events, after which
`pd->visible = TRUE`. -/
def get_wayland_window (globals : List WlGlobal)
    (initialEvents : List WEvent) : InitOutcome :=
  let pd1 := globals.foldl handle_global initPrivateData
  if pd1.manager = none then
    { pd := pd1, warnings := 1, roundtrips := 1 }
  else
    let pd2 := wrun pd1 initialEvents
    { pd := { pd2 with visible := true }, warnings := 0, roundtrips := 2 }

/-! ## Result dispatch

The `MenuReturn` / `ModeMode` constants come from the repository's mode
headers (not part of this module's file); their exact values are the
upstream bit flags and do not matter beyond being distinct bits. -/

def MENU_OK : Nat := 0x00010000
def MENU_CANCEL : Nat := 0x00020000
def MENU_NEXT : Nat := 0x00040000
def MENU_ENTRY_DELETE : Nat := 0x00100000
def MENU_QUICK_SWITCH : Nat := 0x00200000
def MENU_PREVIOUS : Nat := 0x00400000
def MENU_LOWER_MASK : Nat := 0x0000FFFF

def MODE_EXIT : Nat := 1000
def NEXT_DIALOG : Nat := 1001
def PREVIOUS_DIALOG : Nat := 1003

/-- A fault of the C code: dereferencing the NULL result of
`g_list_nth_data`. -/
inductive Fault where
  | nullDeref
deriving DecidableEq, Repr

/-- Outgoing protocol requests issued by the dispatch. -/
inductive Request where
  | activate (handle : Nat) (seat : Nat)
  | close (handle : Nat)
  | flush
deriving DecidableEq, Repr

/-- `wayland_window_mode_result`: the branch chain over `mretv`. The
`MENU_OK` and `MENU_ENTRY_DELETE` branches look the row up with
`g_list_nth_data` and immediately pass the result to
`foreign_toplevel_handle_activate` / `foreign_toplevel_handle_close`,
which dereference it with no guard — a `none` lookup is a fault. -/
def wayland_window_mode_result (pd : WaylandWindowModePrivateData)
    (mretv : Nat) (selected_line : Nat) (seat : Nat) :
    Except Fault (Nat × List Request) :=
  if mretv &&& MENU_NEXT ≠ 0 then .ok (NEXT_DIALOG, [])
  else if mretv &&& MENU_PREVIOUS ≠ 0 then .ok (PREVIOUS_DIALOG, [])
  else if mretv &&& MENU_QUICK_SWITCH ≠ 0 then
    .ok (mretv &&& MENU_LOWER_MASK, [])
  else if mretv &&& MENU_OK ≠ 0 then
    match pd.toplevels.get? selected_line with
    | none => .error .nullDeref
    | some t => .ok (MODE_EXIT, [.activate t.handle seat, .flush])
  else if mretv &&& MENU_ENTRY_DELETE = MENU_ENTRY_DELETE then
    match pd.toplevels.get? selected_line with
    | none => .error .nullDeref
    | some t => .ok (MODE_EXIT, [.close t.handle, .flush])
  else .ok (MODE_EXIT, [])

/-! ## Helper lemmas -/

theorem wrun_append (pd : WaylandWindowModePrivateData)
    (es1 es2 : List WEvent) :
    wrun pd (es1 ++ es2) = wrun (wrun pd es1) es2 := by
  simp [wrun]

theorem foldl_update_max_toplevels (l : List ForeignToplevelHandle)
    (pd : WaylandWindowModePrivateData) :
    (l.foldl (fun acc t => toplevels_list_update_max_len t acc) pd).toplevels
      = pd.toplevels := by
  induction l generalizing pd with
  | nil => rfl
  | cons t ts ih => rw [List.foldl_cons, ih]; rfl

theorem foldl_update_max_visible (l : List ForeignToplevelHandle)
    (pd : WaylandWindowModePrivateData) :
    (l.foldl (fun acc t => toplevels_list_update_max_len t acc) pd).visible
      = pd.visible := by
  induction l generalizing pd with
  | nil => rfl
  | cons t ts ih => rw [List.foldl_cons, ih]; rfl

theorem foldl_update_max_title (l : List ForeignToplevelHandle)
    (pd : WaylandWindowModePrivateData) :
    (l.foldl (fun acc t => toplevels_list_update_max_len t acc) pd).title_len
      = l.foldl (fun acc t => max t.title_len acc) pd.title_len := by
  induction l generalizing pd with
  | nil => rfl
  | cons t ts ih => rw [List.foldl_cons, List.foldl_cons, ih]; rfl

theorem foldl_update_max_app_id (l : List ForeignToplevelHandle)
    (pd : WaylandWindowModePrivateData) :
    (l.foldl (fun acc t => toplevels_list_update_max_len t acc) pd).app_id_len
      = l.foldl (fun acc t => max t.app_id_len acc) pd.app_id_len := by
  induction l generalizing pd with
  | nil => rfl
  | cons t ts ih => rw [List.foldl_cons, List.foldl_cons, ih]; rfl

theorem update_toplevel_toplevels (pd : WaylandWindowModePrivateData)
    (tv : ForeignToplevelHandle) :
    (wayland_window_update_toplevel pd tv).toplevels = pd.toplevels := by
  unfold wayland_window_update_toplevel
  split
  · rfl
  · exact foldl_update_max_toplevels _ _

theorem update_toplevel_visible_eq (pd : WaylandWindowModePrivateData)
    (tv : ForeignToplevelHandle) :
    (wayland_window_update_toplevel pd tv).visible = pd.visible := by
  unfold wayland_window_update_toplevel
  split
  · rfl
  · exact foldl_update_max_visible _ _

theorem wstep_done_toplevels (pd : WaylandWindowModePrivateData) (h : Nat) :
    (wstep pd (.done h)).toplevels = pd.toplevels := by
  simp only [wstep]
  cases findToplevel pd.toplevels h with
  | none => rfl
  | some t => exact update_toplevel_toplevels _ _

theorem mem_removeFirst (l : List ForeignToplevelHandle) (h : Nat)
    (t : ForeignToplevelHandle) (ht : t ∈ removeFirst l h) : t ∈ l := by
  induction l with
  | nil => simp [removeFirst] at ht
  | cons u us ih =>
      by_cases hu : u.handle = h
      · simp only [removeFirst, if_pos hu] at ht
        exact List.mem_cons_of_mem _ ht
      · simp only [removeFirst, if_neg hu, List.mem_cons] at ht
        rcases ht with rfl | ht
        · exact List.mem_cons_self _ _
        · exact List.mem_cons_of_mem _ (ih ht)

theorem mem_updateFirst (l : List ForeignToplevelHandle) (h : Nat)
    (f : ForeignToplevelHandle → ForeignToplevelHandle)
    (t : ForeignToplevelHandle) (ht : t ∈ updateFirst l h f) :
    t ∈ l ∨ ∃ u ∈ l, t = f u := by
  induction l with
  | nil => simp [updateFirst] at ht
  | cons u us ih =>
      by_cases hu : u.handle = h
      · simp only [updateFirst, if_pos hu, List.mem_cons] at ht
        rcases ht with rfl | ht
        · exact Or.inr ⟨u, List.mem_cons_self _ _, rfl⟩
        · exact Or.inl (List.mem_cons_of_mem _ ht)
      · simp only [updateFirst, if_neg hu, List.mem_cons] at ht
        rcases ht with rfl | ht
        · exact Or.inl (List.mem_cons_self _ _)
        · rcases ih ht with h1 | ⟨v, hv, rfl⟩
          · exact Or.inl (List.mem_cons_of_mem _ h1)
          · exact Or.inr ⟨v, List.mem_cons_of_mem _ hv, rfl⟩

theorem findToplevel_exists_of_mem (l : List ForeignToplevelHandle) (h : Nat)
    (hm : h ∈ l.map ForeignToplevelHandle.handle) :
    ∃ t, findToplevel l h = some t := by
  induction l with
  | nil => simp at hm
  | cons u us ih =>
      by_cases hu : u.handle = h
      · exact ⟨u, by simp [findToplevel, List.find?, hu]⟩
      · simp only [List.map_cons, List.mem_cons] at hm
        rcases hm with rfl | hm
        · exact absurd rfl hu
        · rcases ih hm with ⟨t, htf⟩
          refine ⟨t, ?_⟩
          simpa [findToplevel, List.find?, hu] using htf

theorem lenOk_new (h : Nat) : lenOk (foreign_toplevel_handle_new h) :=
  ⟨rfl, rfl⟩

theorem lenOk_title (t : ForeignToplevelHandle) (s : String) (h : lenOk t) :
    lenOk (foreign_toplevel_handle_title t s) :=
  ⟨rfl, h.2⟩

theorem lenOk_app_id (t : ForeignToplevelHandle) (s : String) (h : lenOk t) :
    lenOk (foreign_toplevel_handle_app_id t s) :=
  ⟨h.1, rfl⟩

theorem lenOk_state (t : ForeignToplevelHandle) (xs : List Nat)
    (h : lenOk t) : lenOk (foreign_toplevel_handle_state t xs) :=
  ⟨h.1, h.2⟩

theorem wstep_lenOk (pd : WaylandWindowModePrivateData) (e : WEvent)
    (hok : ∀ t ∈ pd.toplevels, lenOk t) :
    ∀ t ∈ (wstep pd e).toplevels, lenOk t := by
  cases e with
  | announce h =>
      intro t htm
      simp only [wstep, List.mem_cons] at htm
      rcases htm with rfl | htm
      · exact lenOk_new h
      · exact hok t htm
  | setTitle h s =>
      intro t htm
      simp only [wstep] at htm
      rcases mem_updateFirst _ _ _ _ htm with h1 | ⟨u, hu, rfl⟩
      · exact hok t h1
      · exact lenOk_title u s (hok u hu)
  | setAppId h s =>
      intro t htm
      simp only [wstep] at htm
      rcases mem_updateFirst _ _ _ _ htm with h1 | ⟨u, hu, rfl⟩
      · exact hok t h1
      · exact lenOk_app_id u s (hok u hu)
  | setState h xs =>
      intro t htm
      simp only [wstep] at htm
      rcases mem_updateFirst _ _ _ _ htm with h1 | ⟨u, hu, rfl⟩
      · exact hok t h1
      · exact lenOk_state u xs (hok u hu)
  | done h =>
      intro t htm
      rw [wstep_done_toplevels] at htm
      exact hok t htm
  | closed h =>
      intro t htm
      simp only [wstep] at htm
      cases hf : findToplevel pd.toplevels h with
      | none => rw [hf] at htm; exact hok t htm
      | some u =>
          rw [hf] at htm
          rw [update_toplevel_toplevels] at htm
          exact hok t (mem_removeFirst _ _ _ htm)
  | reveal =>
      intro t htm
      exact hok t htm

theorem wrun_lenOk (pd : WaylandWindowModePrivateData) (es : List WEvent)
    (hok : ∀ t ∈ pd.toplevels, lenOk t) :
    ∀ t ∈ (wrun pd es).toplevels, lenOk t := by
  induction es generalizing pd with
  | nil => exact hok
  | cons e es ih => exact ih (wstep pd e) (wstep_lenOk pd e hok)

theorem foldl_max_title_true (l : List ForeignToplevelHandle) (a : Nat)
    (hok : ∀ t ∈ l, lenOk t) :
    l.foldl (fun acc t => max t.title_len acc) a
      = l.foldl (fun acc t => max (fieldCharLen t.title) acc) a := by
  induction l generalizing a with
  | nil => rfl
  | cons t ts ih =>
      have h1 := (hok t (List.mem_cons_self _ _)).1
      simp only [List.foldl_cons, h1]
      exact ih _ (fun u hu => hok u (List.mem_cons_of_mem _ hu))

theorem foldl_max_app_id_true (l : List ForeignToplevelHandle) (a : Nat)
    (hok : ∀ t ∈ l, lenOk t) :
    l.foldl (fun acc t => max t.app_id_len acc) a
      = l.foldl (fun acc t => max (fieldCharLen t.app_id) acc) a := by
  induction l generalizing a with
  | nil => rfl
  | cons t ts ih =>
      have h1 := (hok t (List.mem_cons_self _ _)).2
      simp only [List.foldl_cons, h1]
      exact ih _ (fun u hu => hok u (List.mem_cons_of_mem _ hu))

theorem update_toplevel_rescan (pd : WaylandWindowModePrivateData)
    (tv : ForeignToplevelHandle) (hv : pd.visible = true)
    (hok : ∀ t ∈ pd.toplevels, lenOk t) :
    (wayland_window_update_toplevel pd tv).title_len
        = maxTitleLen pd.toplevels ∧
    (wayland_window_update_toplevel pd tv).app_id_len
        = maxAppIdLen pd.toplevels := by
  unfold wayland_window_update_toplevel
  rw [hv]
  simp only [Bool.true_eq_false, if_false]
  constructor
  · rw [foldl_update_max_title]
    exact foldl_max_title_true _ _ hok
  · rw [foldl_update_max_app_id]
    exact foldl_max_app_id_true _ _ hok

theorem wrun_cons (pd : WaylandWindowModePrivateData) (e : WEvent)
    (es : List WEvent) : wrun pd (e :: es) = wrun (wstep pd e) es := rfl

/-- C1: once the visibility flag is true, immediately after processing
any commit (`done`) event or any removal (`closed`) event, the
registry's running maxima `title_len` and `app_id_len` each equal the
true maximum character count of the corresponding field over all
objects in the live collection — for every trace of events, hence for
every interleaving, including objects committing out of announcement
order. -/
theorem C1_registry_maxima (es : List WEvent) (e : WEvent) (h : Nat)
    (he : e = WEvent.done h ∨ e = WEvent.closed h)
    (hv : (wrun initPrivateData es).visible = true)
    (hm : h ∈ (wrun initPrivateData es).toplevels.map
        ForeignToplevelHandle.handle) :
    (wrun initPrivateData (es ++ [e])).title_len
        = maxTitleLen (wrun initPrivateData (es ++ [e])).toplevels ∧
    (wrun initPrivateData (es ++ [e])).app_id_len
        = maxAppIdLen (wrun initPrivateData (es ++ [e])).toplevels := by
  have hrw : wrun initPrivateData (es ++ [e])
      = wstep (wrun initPrivateData es) e := by
    rw [wrun_append]; rfl
  set s := wrun initPrivateData es with hs
  have hok : ∀ t ∈ s.toplevels, lenOk t :=
    wrun_lenOk initPrivateData es
      (by intro t ht; simp [initPrivateData] at ht)
  obtain ⟨t, hfind⟩ := findToplevel_exists_of_mem s.toplevels h hm
  rcases he with rfl | rfl
  · have h1 : wstep s (WEvent.done h) = wayland_window_update_toplevel s t := by
      simp only [wstep, hfind]
    rw [hrw, h1, update_toplevel_toplevels]
    exact update_toplevel_rescan s t hv hok
  · have h1 : wstep s (WEvent.closed h)
        = wayland_window_update_toplevel
            { s with toplevels := removeFirst s.toplevels h }
            { t with state := TOPLEVEL_STATE_CLOSED } := by
      simp only [wstep, hfind]
    rw [hrw, h1, update_toplevel_toplevels]
    exact update_toplevel_rescan _ _ hv
      (fun u hu => hok u (mem_removeFirst _ _ _ hu))

theorem C1_registry_maxima_witness :
    ((WEvent.done 2 : WEvent) = WEvent.done 2 ∨
        (WEvent.done 2 : WEvent) = WEvent.closed 2) ∧
    (wrun initPrivateData
        [.announce 1, .announce 2, .setTitle 2 "xy", .setAppId 1 "app",
          .reveal]).visible = true ∧
    2 ∈ (wrun initPrivateData
        [.announce 1, .announce 2, .setTitle 2 "xy", .setAppId 1 "app",
          .reveal]).toplevels.map ForeignToplevelHandle.handle ∧
    ((wrun initPrivateData
        ([.announce 1, .announce 2, .setTitle 2 "xy", .setAppId 1 "app",
          .reveal] ++ [WEvent.done 2])).title_len
      = maxTitleLen (wrun initPrivateData
        ([.announce 1, .announce 2, .setTitle 2 "xy", .setAppId 1 "app",
          .reveal] ++ [WEvent.done 2])).toplevels ∧
    (wrun initPrivateData
        ([.announce 1, .announce 2, .setTitle 2 "xy", .setAppId 1 "app",
          .reveal] ++ [WEvent.done 2])).app_id_len
      = maxAppIdLen (wrun initPrivateData
        ([.announce 1, .announce 2, .setTitle 2 "xy", .setAppId 1 "app",
          .reveal] ++ [WEvent.done 2])).toplevels) :=
  ⟨Or.inl rfl, by decide, by decide,
    C1_registry_maxima _ _ 2 (Or.inl rfl) (by decide) (by decide)⟩

theorem applyFieldEvent_handle (t : ForeignToplevelHandle) (f : FieldEvent) :
    (applyFieldEvent t f).handle = t.handle := by
  cases f <;> rfl

theorem applyFieldEvent_title (t : ForeignToplevelHandle)
    (fs : List FieldEvent) :
    (fs.foldl applyFieldEvent t).title
      = match lastTitleSet fs with
        | some v => some v
        | none => t.title := by
  induction fs generalizing t with
  | nil => rfl
  | cons f fs ih =>
      rw [List.foldl_cons, ih]
      cases hls : lastTitleSet fs with
      | some v => simp [lastTitleSet, hls]
      | none =>
          cases f with
          | title s =>
              simp [lastTitleSet, hls, applyFieldEvent,
                foreign_toplevel_handle_title]
          | app_id s =>
              simp [lastTitleSet, hls, applyFieldEvent,
                foreign_toplevel_handle_app_id]
          | state xs =>
              simp [lastTitleSet, hls, applyFieldEvent,
                foreign_toplevel_handle_state]

theorem applyFieldEvent_app_id (t : ForeignToplevelHandle)
    (fs : List FieldEvent) :
    (fs.foldl applyFieldEvent t).app_id
      = match lastAppIdSet fs with
        | some v => some v
        | none => t.app_id := by
  induction fs generalizing t with
  | nil => rfl
  | cons f fs ih =>
      rw [List.foldl_cons, ih]
      cases hls : lastAppIdSet fs with
      | some v => simp [lastAppIdSet, hls]
      | none =>
          cases f with
          | title s =>
              simp [lastAppIdSet, hls, applyFieldEvent,
                foreign_toplevel_handle_title]
          | app_id s =>
              simp [lastAppIdSet, hls, applyFieldEvent,
                foreign_toplevel_handle_app_id]
          | state xs =>
              simp [lastAppIdSet, hls, applyFieldEvent,
                foreign_toplevel_handle_state]

theorem wrun_single_fields (h : Nat) (t : ForeignToplevelHandle)
    (ht : t.handle = h) (pd : WaylandWindowModePrivateData)
    (hpd : pd.toplevels = [t]) (fs : List FieldEvent) :
    (wrun pd (fs.map (fieldToEvent h))).toplevels
      = [fs.foldl applyFieldEvent t] := by
  induction fs generalizing t pd with
  | nil => simpa [wrun] using hpd
  | cons f fs ih =>
      rw [List.map_cons, wrun_cons, List.foldl_cons]
      refine ih (applyFieldEvent t f) (by rw [applyFieldEvent_handle, ht]) _ ?_
      cases f <;>
        simp [fieldToEvent, wstep, hpd, updateFirst, ht, applyFieldEvent]

/-- C2: for every sequence of title/app_id/state field events delivered
to one toplevel object followed by exactly one `done` terminator, the
committed object's `title` and `app_id` equal the last value set for
each field before the terminator, whatever the order of the field
events among each other. -/
theorem C2_committed_fields_last_write (h : Nat) (fs : List FieldEvent) :
    ((wrun initPrivateData
        (WEvent.announce h :: (fs.map (fieldToEvent h) ++ [WEvent.done h]))).toplevels).map
        (fun t => (t.title, t.app_id))
      = [(lastTitleSet fs, lastAppIdSet fs)] := by
  rw [wrun_cons, wrun_append]
  have hann : (wstep initPrivateData (WEvent.announce h)).toplevels
      = [foreign_toplevel_handle_new h] := rfl
  have hfields := wrun_single_fields h (foreign_toplevel_handle_new h) rfl _
    hann fs
  have hdone : wrun (wrun (wstep initPrivateData (WEvent.announce h))
        (fs.map (fieldToEvent h))) [WEvent.done h]
      = wstep (wrun (wstep initPrivateData (WEvent.announce h))
        (fs.map (fieldToEvent h))) (WEvent.done h) := rfl
  rw [hdone, wstep_done_toplevels, hfields]
  have ht : (fs.foldl applyFieldEvent (foreign_toplevel_handle_new h)).title
      = lastTitleSet fs := by
    rw [applyFieldEvent_title]; cases lastTitleSet fs <;> rfl
  have ha : (fs.foldl applyFieldEvent (foreign_toplevel_handle_new h)).app_id
      = lastAppIdSet fs := by
    rw [applyFieldEvent_app_id]; cases lastAppIdSet fs <;> rfl
  simp [ht, ha]

theorem replaceEvalAux_nil (cb : List Char → String) (fuel : Nat) :
    replaceEvalAux cb fuel [] = [] := by
  cases fuel <;> rfl

theorem mk_toList (s : String) : String.mk s.toList = s := rfl

theorem g_regex_replace_eval_full (cb : List Char → String) (s : String)
    (h : tryMatch s.toList = some (s.toList, [])) :
    g_regex_replace_eval cb s = cb s.toList := by
  unfold g_regex_replace_eval
  cases hs : s.toList with
  | nil => rw [hs] at h; simp [tryMatch] at h
  | cons c cs =>
      rw [hs] at h
      simp only [List.length_cons, replaceEvalAux, h, replaceEvalAux_nil,
        List.append_nil]
      exact mk_toList _

/-- C3 counterexample: with no count, the substituted field is NOT
markup-escaped — rendering a title containing `&` leaves the raw `&`
in the output instead of the escaped field. -/
theorem C3_counterexample :
    _generate_display_string "{t}"
        { toplevels := [], visible := true, title_len := 3, app_id_len := 0,
          manager := none }
        { foreign_toplevel_handle_new 1 with
            title := some "a&b", title_len := 3 }
      = "a&b" ∧
    g_markup_escape_text "a&b" = "a&amp;b" ∧
    ("a&b" : String) ≠ g_markup_escape_text "a&b" := by
  refine ⟨?_, ?_, ?_⟩ <;> decide

/-- C3 (amended): for every placeholder without a count and every field
value, the format engine substitutes the full field verbatim — with no
markup escaping — and then right-pads with spaces up to the column's
global maximum width. -/
theorem C3_nocount_verbatim (pd : WaylandWindowModePrivateData)
    (t : ForeignToplevelHandle) (s : String) (hts : t.title = some s) :
    g_regex_replace_eval (helper_eval_cb pd t) "{t}"
      = s ++ String.mk (List.replicate
          (max 0 ((pd.title_len : Int) - (t.title_len : Int))).toNat ' ') := by
  rw [g_regex_replace_eval_full _ _ (by decide)]
  rw [show helper_eval_cb pd t ("{t}".toList)
      = helper_eval_add_str "" t.title 0 (pd.title_len : Int)
          (t.title_len : Int) from rfl]
  rw [show helper_eval_add_str "" t.title 0 (pd.title_len : Int)
          (t.title_len : Int)
      = "" ++ t.title.getD "" ++ String.mk (List.replicate
          (max 0 ((pd.title_len : Int) - (t.title_len : Int))).toNat ' ')
      from rfl]
  rw [hts]
  simp [Option.getD]

theorem C3_nocount_verbatim_witness :
    ({ foreign_toplevel_handle_new 1 with
        title := some "a&b", title_len := 3 } :
          ForeignToplevelHandle).title = some "a&b" ∧
    g_regex_replace_eval
        (helper_eval_cb
          { toplevels := [], visible := true, title_len := 5, app_id_len := 0,
            manager := none }
          { foreign_toplevel_handle_new 1 with
              title := some "a&b", title_len := 3 }) "{t}"
      = "a&b" ++ String.mk (List.replicate
          (max 0 (((5 : Nat) : Int) - ((3 : Nat) : Int))).toNat ' ') :=
  ⟨rfl,
    C3_nocount_verbatim
      { toplevels := [], visible := true, title_len := 5, app_id_len := 0,
        manager := none }
      { foreign_toplevel_handle_new 1 with
          title := some "a&b", title_len := 3 }
      "a&b" rfl⟩

/-- C4 counterexample: an unrecognized placeholder letter (`x`) is NOT
left in the output as literal template text — the placeholder is
deleted (replaced by the empty string). -/
theorem C4_counterexample :
    _generate_display_string "{x}"
        { toplevels := [], visible := true, title_len := 0, app_id_len := 0,
          manager := none }
        (foreign_toplevel_handle_new 1)
      = "" ∧
    ("" : String) ≠ "{x}" := by
  refine ⟨?_, ?_⟩ <;> decide

/-- C4 (amended): every single-letter placeholder whose letter is a word
character other than the recognized `t`, `a`, `c` is removed from the
output — the callback appends no replacement for it, so the match is
replaced by the empty string rather than passed through. -/
theorem C4_unrecognized_removed (pd : WaylandWindowModePrivateData)
    (t : ForeignToplevelHandle) (c : Char) (hw : isWordChar c = true)
    (ht : c ≠ 't') (ha : c ≠ 'a') (hc : c ≠ 'c') :
    _generate_display_string (String.mk [braceOpen, c, braceClose]) pd t
      = "" := by
  have h1 : isWordChar braceClose = false := by decide
  have h2 : ¬(braceClose = ':') := by decide
  have hscan : tryMatch (String.mk [braceOpen, c, braceClose]).toList
      = some ((String.mk [braceOpen, c, braceClose]).toList, []) := by
    show tryMatch [braceOpen, c, braceClose] = some ([braceOpen, c, braceClose], [])
    simp [tryMatch, spanWord, matchCountGroup, hw, h1, h2]
  unfold _generate_display_string
  rw [g_regex_replace_eval_full _ _ hscan]
  have hcb : helper_eval_cb pd t (String.mk [braceOpen, c, braceClose]).toList
      = "" := by
    show helper_eval_cb pd t [braceOpen, c, braceClose] = ""
    have g1 : (([braceOpen, c, braceClose] : List Char).get? 1).getD ' ' = c :=
      rfl
    have g2 : (([braceOpen, c, braceClose] : List Char).get? 2).getD ' '
        = braceClose := rfl
    simp only [helper_eval_cb, g1, g2, if_neg h2]
    rw [if_neg (by decide : ¬((0 : Int) < 0))]
    rw [if_neg ht, if_neg (by simp [ha, hc])]
  rw [hcb]
  decide

theorem C4_unrecognized_removed_witness :
    isWordChar 'x' = true ∧ ('x' : Char) ≠ 't' ∧ ('x' : Char) ≠ 'a' ∧
    ('x' : Char) ≠ 'c' ∧
    _generate_display_string (String.mk [braceOpen, 'x', braceClose])
        { toplevels := [], visible := true, title_len := 0, app_id_len := 0,
          manager := none }
        (foreign_toplevel_handle_new 1)
      = "" :=
  ⟨by decide, by decide, by decide, by decide,
    C4_unrecognized_removed
      { toplevels := [], visible := true, title_len := 0, app_id_len := 0,
        manager := none }
      (foreign_toplevel_handle_new 1) 'x' (by decide) (by decide) (by decide)
      (by decide)⟩

/-- C5 counterexample: rendering `"{t:5}"` for an object titled `"ab"`
does NOT return `"ab   "` — `_generate_display_string` chomps trailing
whitespace, so the padding is trimmed away on return. -/
theorem C5_counterexample :
    _generate_display_string "{t:5}"
        { toplevels := [], visible := true, title_len := 2, app_id_len := 0,
          manager := none }
        { foreign_toplevel_handle_new 1 with
            title := some "ab", title_len := 2 }
      ≠ "ab   " := by
  decide

/-- C5 (amended): rendering `"{t:5}"` for an object titled `"ab"` first
substitutes the field padded with spaces to width 5 (`"ab   "`), and
the returned string is that result with trailing whitespace trimmed,
i.e. `"ab"`. -/
theorem C5_render_count_padded_then_trimmed :
    g_regex_replace_eval
        (helper_eval_cb
          { toplevels := [], visible := true, title_len := 2, app_id_len := 0,
            manager := none }
          { foreign_toplevel_handle_new 1 with
              title := some "ab", title_len := 2 }) "{t:5}"
      = "ab   " ∧
    _generate_display_string "{t:5}"
        { toplevels := [], visible := true, title_len := 2, app_id_len := 0,
          manager := none }
        { foreign_toplevel_handle_new 1 with
            title := some "ab", title_len := 2 }
      = "ab" := by
  refine ⟨?_, ?_⟩ <;> decide

/-- C6: for every positive count `N` and every field whose character
length exceeds `N`, the substituted field is truncated to its first `N`
characters — counted by Unicode codepoint, as the model's strings are
codepoint sequences (`g_utf8_offset_to_pointer`) — before
markup-escaping, and no padding is appended. -/
theorem C6_count_truncates_codepoints (acc : String) (s : String)
    (N max_len : Int) (hN : 0 < N) (hlen : N < (s.length : Int)) :
    helper_eval_add_str acc (some s) N max_len (s.length : Int)
      = acc ++ g_markup_escape_text (s.take N.toNat) := by
  simp only [helper_eval_add_str]
  rw [if_neg (by omega : ¬(N = 0)), if_pos (by omega : (s.length : Int) > N)]
  rfl

theorem C6_count_truncates_codepoints_witness :
    (0 : Int) < 2 ∧ (2 : Int) < (("abcdef" : String).length : Int) ∧
    helper_eval_add_str "" (some "abcdef") 2 0 (("abcdef" : String).length : Int)
      = "" ++ g_markup_escape_text (("abcdef" : String).take (2 : Int).toNat) :=
  ⟨by decide, by decide,
    C6_count_truncates_codepoints "" "abcdef" 2 0 (by decide) (by decide)⟩

theorem get?_set_self {α : Type} (l : List α) (n : Nat) (b : α)
    (h : n < l.length) : (l.set n b).get? n = some b := by
  induction l generalizing n with
  | nil => simp at h
  | cons a as ih =>
      cases n with
      | zero => rfl
      | succ m => exact ih m (Nat.lt_of_succ_lt_succ h)

theorem set_get?_id {α : Type} (l : List α) (n : Nat) (a : α)
    (h : l.get? n = some a) : l.set n a = l := by
  induction l generalizing n with
  | nil => simp [List.set]
  | cons b bs ih =>
      cases n with
      | zero =>
          simp only [List.get?] at h
          cases h
          rfl
      | succ m =>
          simp only [List.get?] at h
          simp [List.set, ih m h]

theorem _get_icon_eq (f : IconFetcher) (pd : WaylandWindowModePrivateData)
    (line height : Nat) (t : ForeignToplevelHandle)
    (h : pd.toplevels.get? line = some t) :
    _get_icon f pd line height
      = ((get_icon_obj f t height).1,
        { pd with toplevels :=
            pd.toplevels.set line (get_icon_obj f t height).2.1 },
        (get_icon_obj f t height).2.2) := by
  unfold _get_icon
  rw [h]

theorem get_icon_obj_post (f : IconFetcher) (t : ForeignToplevelHandle)
    (height : Nat) (a : String) (ha : t.app_id = some a) (hne : a ≠ "")
    (hq : ∀ k n, 0 < f.query k n) :
    (get_icon_obj f t height).2.1.app_id = some a ∧
    0 < (get_icon_obj f t height).2.1.cached_icon_uid ∧
    (get_icon_obj f t height).2.1.cached_icon_size = height := by
  unfold get_icon_obj
  rw [ha]
  simp only
  rw [if_neg hne]
  by_cases hcache : 0 < t.cached_icon_uid ∧ t.cached_icon_size = height
  · rw [if_pos hcache]
    exact ⟨ha, hcache.1, hcache.2⟩
  · rw [if_neg hcache]
    cases hget : f.get (f.query a height) with
    | some icon => exact ⟨rfl, hq a height, rfl⟩
    | none => exact ⟨rfl, hq (g_utf8_strdown a) height, rfl⟩

theorem get_icon_obj_hit (f : IconFetcher) (t : ForeignToplevelHandle)
    (height : Nat) (a : String) (ha : t.app_id = some a) (hne : a ≠ "")
    (hu : 0 < t.cached_icon_uid) (hs : t.cached_icon_size = height) :
    get_icon_obj f t height = (f.get t.cached_icon_uid, t, []) := by
  unfold get_icon_obj
  rw [ha]
  simp only
  rw [if_neg hne, if_pos ⟨hu, hs⟩]

theorem get_icon_obj_miss_queries (f : IconFetcher)
    (t : ForeignToplevelHandle) (height : Nat) (a : String)
    (ha : t.app_id = some a) (hne : a ≠ "")
    (hmiss : ¬(0 < t.cached_icon_uid ∧ t.cached_icon_size = height)) :
    (get_icon_obj f t height).2.2 ≠ [] := by
  unfold get_icon_obj
  rw [ha]
  simp only
  rw [if_neg hne, if_neg hmiss]
  cases f.get (f.query a height) <;> simp

/-- C7: for a row whose object has a non-empty `app_id` (and an icon
fetcher whose query ids are positive, as `rofi_icon_fetcher_query`'s
are), after one `_get_icon` call at height `h`, a second call at the
same height issues no new query and just returns the cached id's image,
leaving the state unchanged; a call at a different height `h2` always
issues at least one fresh query. -/
theorem C7_icon_cache (f : IconFetcher) (pd : WaylandWindowModePrivateData)
    (line h h2 : Nat) (t : ForeignToplevelHandle) (a : String)
    (hline : pd.toplevels.get? line = some t) (ha : t.app_id = some a)
    (hne : a ≠ "") (hq : ∀ k n, 0 < f.query k n) (hh : h2 ≠ h) :
    ∃ t1, (_get_icon f pd line h).2.1.toplevels.get? line = some t1 ∧
      _get_icon f (_get_icon f pd line h).2.1 line h
        = (f.get t1.cached_icon_uid, (_get_icon f pd line h).2.1, []) ∧
      (_get_icon f (_get_icon f pd line h).2.1 line h2).2.2 ≠ [] := by
  have hlt : line < pd.toplevels.length := by
    rcases List.get?_eq_some.mp hline with ⟨hl, _⟩
    exact hl
  have h1 := _get_icon_eq f pd line h t hline
  set t1 := (get_icon_obj f t h).2.1 with ht1
  have hpost := get_icon_obj_post f t h a ha hne hq
  have hget1 : (_get_icon f pd line h).2.1.toplevels.get? line = some t1 := by
    rw [h1]
    exact get?_set_self _ _ _ hlt
  refine ⟨t1, hget1, ?_, ?_⟩
  · have h2call := _get_icon_eq f (_get_icon f pd line h).2.1 line h t1 hget1
    rw [h2call, get_icon_obj_hit f t1 h a hpost.1 hne hpost.2.1 hpost.2.2]
    rw [set_get?_id _ _ _ hget1]
  · have h3call := _get_icon_eq f (_get_icon f pd line h).2.1 line h2 t1 hget1
    rw [h3call]
    exact get_icon_obj_miss_queries f t1 h2 a hpost.1 hne
      (fun hcon => hh (Eq.trans hcon.2.symm hpost.2.2))

theorem C7_icon_cache_witness :
    (({ toplevels :=
          [{ foreign_toplevel_handle_new 1 with
              app_id := some "App", app_id_len := 3 }],
        visible := true, title_len := 0, app_id_len := 3,
        manager := none } : WaylandWindowModePrivateData).toplevels.get? 0
      = some { foreign_toplevel_handle_new 1 with
          app_id := some "App", app_id_len := 3 }) ∧
    ({ foreign_toplevel_handle_new 1 with
        app_id := some "App", app_id_len := 3 } :
          ForeignToplevelHandle).app_id = some "App" ∧
    ("App" : String) ≠ "" ∧
    (∀ k n, 0 < ({ query := fun _ _ => 1, get := fun _ => none } :
        IconFetcher).query k n) ∧
    (48 : Nat) ≠ 32 ∧
    (∃ t1,
      (_get_icon { query := fun _ _ => 1, get := fun _ => none }
          { toplevels :=
              [{ foreign_toplevel_handle_new 1 with
                  app_id := some "App", app_id_len := 3 }],
            visible := true, title_len := 0, app_id_len := 3,
            manager := none } 0 32).2.1.toplevels.get? 0 = some t1 ∧
      _get_icon { query := fun _ _ => 1, get := fun _ => none }
          (_get_icon { query := fun _ _ => 1, get := fun _ => none }
            { toplevels :=
                [{ foreign_toplevel_handle_new 1 with
                    app_id := some "App", app_id_len := 3 }],
              visible := true, title_len := 0, app_id_len := 3,
              manager := none } 0 32).2.1 0 32
        = (({ query := fun _ _ => 1, get := fun _ => none } :
              IconFetcher).get t1.cached_icon_uid,
          (_get_icon { query := fun _ _ => 1, get := fun _ => none }
            { toplevels :=
                [{ foreign_toplevel_handle_new 1 with
                    app_id := some "App", app_id_len := 3 }],
              visible := true, title_len := 0, app_id_len := 3,
              manager := none } 0 32).2.1, []) ∧
      (_get_icon { query := fun _ _ => 1, get := fun _ => none }
          (_get_icon { query := fun _ _ => 1, get := fun _ => none }
            { toplevels :=
                [{ foreign_toplevel_handle_new 1 with
                    app_id := some "App", app_id_len := 3 }],
              visible := true, title_len := 0, app_id_len := 3,
              manager := none } 0 32).2.1 0 48).2.2 ≠ []) :=
  ⟨rfl, rfl, by decide, fun _ _ => Nat.one_pos, by decide,
    C7_icon_cache { query := fun _ _ => 1, get := fun _ => none }
      { toplevels :=
          [{ foreign_toplevel_handle_new 1 with
              app_id := some "App", app_id_len := 3 }],
        visible := true, title_len := 0, app_id_len := 3, manager := none }
      0 32 48
      { foreign_toplevel_handle_new 1 with
          app_id := some "App", app_id_len := 3 }
      "App" rfl rfl (by decide) (fun _ _ => Nat.one_pos) (by decide)⟩

theorem foldl_handle_global_id (globals : List WlGlobal)
    (pd : WaylandWindowModePrivateData)
    (h : ∀ g ∈ globals, g.name ≠ zwlr_manager_interface) :
    globals.foldl handle_global pd = pd := by
  induction globals generalizing pd with
  | nil => rfl
  | cons g gs ih =>
      rw [List.foldl_cons,
        show handle_global pd g = pd from by
          unfold handle_global
          rw [if_neg (h g (List.mem_cons_self _ _))]]
      exact ih pd (fun g' hg' => h g' (List.mem_cons_of_mem _ hg'))

/-- C8: when no advertised global carries the foreign-toplevel manager
interface, `get_wayland_window` completes non-fatally after the first
round-trip with exactly one warning and no second round-trip, the
registry stays empty and invisible with no manager bound, and the entry
count is 0. -/
theorem C8_no_manager (globals : List WlGlobal) (initialEvents : List WEvent)
    (h : ∀ g ∈ globals, g.name ≠ zwlr_manager_interface) :
    get_wayland_window globals initialEvents
      = { pd := initPrivateData, warnings := 1, roundtrips := 1 } ∧
    (get_wayland_window globals initialEvents).pd.manager = none ∧
    (get_wayland_window globals initialEvents).pd.visible = false ∧
    (get_wayland_window globals initialEvents).pd.toplevels = [] ∧
    wayland_window_mode_get_num_entries
        (get_wayland_window globals initialEvents).pd = 0 := by
  have hmain : get_wayland_window globals initialEvents
      = { pd := initPrivateData, warnings := 1, roundtrips := 1 } := by
    unfold get_wayland_window
    rw [foldl_handle_global_id globals initPrivateData h]
    rfl
  rw [hmain]
  exact ⟨rfl, rfl, rfl, rfl, rfl⟩

theorem C8_no_manager_witness :
    (∀ g ∈ [({ name := "wl_output", version := 4 } : WlGlobal)],
        g.name ≠ zwlr_manager_interface) ∧
    (get_wayland_window [{ name := "wl_output", version := 4 }]
        [WEvent.announce 1]
      = { pd := initPrivateData, warnings := 1, roundtrips := 1 } ∧
    (get_wayland_window [{ name := "wl_output", version := 4 }]
        [WEvent.announce 1]).pd.manager = none ∧
    (get_wayland_window [{ name := "wl_output", version := 4 }]
        [WEvent.announce 1]).pd.visible = false ∧
    (get_wayland_window [{ name := "wl_output", version := 4 }]
        [WEvent.announce 1]).pd.toplevels = [] ∧
    wayland_window_mode_get_num_entries
        (get_wayland_window [{ name := "wl_output", version := 4 }]
          [WEvent.announce 1]).pd = 0) :=
  ⟨by decide,
    C8_no_manager [{ name := "wl_output", version := 4 }] [WEvent.announce 1]
      (by decide)⟩

/-- C9: `_get_display_value` never faults — whenever the index misses
the live list, or resolves to an object whose state carries the
`CLOSED` flag, the returned entry text is the vanished sentinel instead
of a rendered row. -/
theorem C9_display_value_sentinel (window_format : String)
    (pd : WaylandWindowModePrivateData) (selected_line : Nat)
    (h : pd.toplevels.get? selected_line = none ∨
      ∃ t, pd.toplevels.get? selected_line = some t ∧
        t.state &&& TOPLEVEL_STATE_CLOSED ≠ 0) :
    (_get_display_value window_format pd selected_line true).1
      = some "Window has vanished" := by
  unfold _get_display_value
  rcases h with h | ⟨t, ht, hc⟩
  · rw [h]
    rfl
  · rw [ht]
    simp only
    rw [if_pos hc]
    rfl

theorem C9_display_value_sentinel_witness :
    (({ toplevels :=
          [{ foreign_toplevel_handle_new 1 with
              state := TOPLEVEL_STATE_CLOSED }],
        visible := true, title_len := 0, app_id_len := 0,
        manager := none } : WaylandWindowModePrivateData).toplevels.get? 0
          = none ∨
      ∃ t, (WaylandWindowModePrivateData.mk
          [{ foreign_toplevel_handle_new 1 with
              state := TOPLEVEL_STATE_CLOSED }]
          true 0 0 none).toplevels.get? 0
          = some t ∧ t.state &&& TOPLEVEL_STATE_CLOSED ≠ 0) ∧
    (_get_display_value "{t}"
        { toplevels :=
            [{ foreign_toplevel_handle_new 1 with
                state := TOPLEVEL_STATE_CLOSED }],
          visible := true, title_len := 0, app_id_len := 0,
          manager := none } 0 true).1 = some "Window has vanished" :=
  ⟨Or.inr ⟨{ foreign_toplevel_handle_new 1 with
      state := TOPLEVEL_STATE_CLOSED }, rfl, by decide⟩,
    C9_display_value_sentinel "{t}"
      { toplevels :=
          [{ foreign_toplevel_handle_new 1 with
              state := TOPLEVEL_STATE_CLOSED }],
        visible := true, title_len := 0, app_id_len := 0, manager := none }
      0
      (Or.inr ⟨{ foreign_toplevel_handle_new 1 with
          state := TOPLEVEL_STATE_CLOSED }, rfl, by decide⟩)⟩

/-- C10: the activate (`MENU_OK`) and close (`MENU_ENTRY_DELETE`)
dispatch paths look the selected row up and immediately dereference the
result with no vanished-guard: for any selected index at or past the
entry count the lookup yields `none` and the dispatch faults on a null
dereference — the sentinel defense of the display/icon paths does not
extend here. -/
theorem C10_result_unguarded_deref (pd : WaylandWindowModePrivateData)
    (selected_line seat : Nat)
    (h : wayland_window_mode_get_num_entries pd ≤ selected_line) :
    wayland_window_mode_result pd MENU_OK selected_line seat
      = Except.error Fault.nullDeref ∧
    wayland_window_mode_result pd MENU_ENTRY_DELETE selected_line seat
      = Except.error Fault.nullDeref := by
  have hget : pd.toplevels.get? selected_line = none :=
    List.get?_eq_none.mpr h
  constructor
  · unfold wayland_window_mode_result
    rw [if_neg (by decide : ¬(MENU_OK &&& MENU_NEXT ≠ 0)),
      if_neg (by decide : ¬(MENU_OK &&& MENU_PREVIOUS ≠ 0)),
      if_neg (by decide : ¬(MENU_OK &&& MENU_QUICK_SWITCH ≠ 0)),
      if_pos (by decide : MENU_OK &&& MENU_OK ≠ 0), hget]
  · unfold wayland_window_mode_result
    rw [if_neg (by decide : ¬(MENU_ENTRY_DELETE &&& MENU_NEXT ≠ 0)),
      if_neg (by decide : ¬(MENU_ENTRY_DELETE &&& MENU_PREVIOUS ≠ 0)),
      if_neg (by decide : ¬(MENU_ENTRY_DELETE &&& MENU_QUICK_SWITCH ≠ 0)),
      if_neg (by decide : ¬(MENU_ENTRY_DELETE &&& MENU_OK ≠ 0)),
      if_pos (by decide :
        MENU_ENTRY_DELETE &&& MENU_ENTRY_DELETE = MENU_ENTRY_DELETE), hget]

theorem C10_result_unguarded_deref_witness :
    wayland_window_mode_get_num_entries initPrivateData ≤ 0 ∧
    (wayland_window_mode_result initPrivateData MENU_OK 0 7
        = Except.error Fault.nullDeref ∧
      wayland_window_mode_result initPrivateData MENU_ENTRY_DELETE 0 7
        = Except.error Fault.nullDeref) :=
  ⟨by decide, C10_result_unguarded_deref initPrivateData 0 7 (by decide)⟩
